import Mathlib

/-!
Verification of the mental-health diary pipeline
(`app.py`, `utils/analysis.py`, `database/db_handler.py`).

The Python code is shallowly embedded: every function the claims touch is
translated into an executable Lean definition operating on `String` /
`List Char` / `ℚ`.  External collaborators are modelled as parameters:

* `json.loads` (an external library call) is a parameter
  `loads : String → Option _` — `none` models a raised exception, `some d`
  models a successfully parsed object projected onto the fields the code
  reads;
* the chat-completion API call is a parameter `chat : Except String String`
  (`.error` models a raised exception — missing key, network failure, or a
  malformed response shape when indexing `resp["choices"][0]...`);
* `random.choice` is modelled by an arbitrary index reduced modulo the list
  length, so theorems quantify over every possible random draw;
* Python `str.lower()` is modelled on its ASCII fragment (`Char.toLower`),
  which is exact for every string the claims evaluate.

String literals reproduce the source files byte-for-byte as decoded UTF-8
(`analysis.py` contains mojibake sequences such as U+00E2 U+20AC U+201C;
they are reproduced verbatim with `\uXXXX` escapes).
-/

/-! ## Python string primitives -/

/-- The whitespace set of Python `str.strip()` / `str.split()` (ASCII part). -/
def isPySpace (c : Char) : Bool :=
  c = ' ' || c = '\t' || c = '\n' || c = '\r' || c = '\x0b' || c = '\x0c'

/-- Python `str.strip()` on a character list: drop whitespace at both ends. -/
def pyStripL (l : List Char) : List Char :=
  ((l.dropWhile isPySpace).reverse.dropWhile isPySpace).reverse

/-- Python `str.strip()`. -/
def pyStrip (s : String) : String :=
  ⟨pyStripL s.data⟩

/-- Python `str.lower()` (ASCII fragment). -/
def pyLower (s : String) : String :=
  ⟨s.data.map Char.toLower⟩

/-- Python `x or d` for an optional string `x`: absent (`None`) and the empty
string are falsy and give `d`. -/
def pyOr (v : Option String) (d : String) : String :=
  match v with
  | none => d
  | some s => if s = "" then d else s

/-- Python `needle in hay` on character lists (contiguous substring). -/
def subL (n : List Char) : List Char → Bool
  | [] => n.isEmpty
  | c :: t => n.isPrefixOf (c :: t) || subL n t

/-- Python `needle in hay` for strings. -/
def isSubstr (needle hay : String) : Bool :=
  subL needle.data hay.data

/-- `p` is a verbatim text prefix of `s`. -/
def startsWithText (p s : String) : Bool :=
  p.data.isPrefixOf s.data

/-- Python `str.split()` with no argument: split on whitespace runs,
discarding empty pieces (accumulator holds the current word reversed). -/
def pySplitAux : List Char → List Char → List String
  | [], acc => if acc.isEmpty then [] else [⟨acc.reverse⟩]
  | c :: t, acc =>
    if isPySpace c then
      if acc.isEmpty then pySplitAux t [] else ⟨acc.reverse⟩ :: pySplitAux t []
    else pySplitAux t (c :: acc)

/-- Python `str.split()` with no argument. -/
def pySplitWs (s : String) : List String :=
  pySplitAux s.data []

/-- `re.sub(r"[^a-z0-9]", "", token)`: keep only `a`–`z` and `0`–`9`. -/
def cleanToken (s : String) : String :=
  ⟨s.data.filter fun c => (decide ('a' ≤ c) && decide (c ≤ 'z')) ||
    (decide ('0' ≤ c) && decide (c ≤ '9'))⟩

/-- `random.choice` modelled by an arbitrary index taken modulo the length. -/
def choose (l : List String) (i : Nat) : String :=
  l.getD (i % l.length) ""

/-- An ASCII upper-case letter `A`–`Z`. -/
def isAsciiUpper (c : Char) : Bool :=
  decide (65 ≤ c.toNat) && decide (c.toNat ≤ 90)

/-! ## `re.search(r"\{.*\}", text, re.DOTALL)`

The regex matches from the first `{` in the text through the last `}` after
it (the leftmost match starts at the first `{`, and `.*` is greedy with
`DOTALL`); when there is no such pair the code parses the blob `"{}"`. -/

/-- The blob handed to `json.loads`: the first `{` through the last `}`,
`"{}"` when no match. -/
def blobOf (text : String) : String :=
  let fromBrace := text.data.dropWhile fun c => c != '\x7b'
  let m := (fromBrace.reverse.dropWhile fun c => c != '\x7d').reverse
  if m.isEmpty then "\x7b\x7d" else ⟨m⟩

/-! ## `utils/analysis.py` -/

namespace Analysis

/-- The four fields `analyze_emotion` reads off the parsed JSON object
(`data.get(...)`): `none` models an absent key (or a JSON `null`). -/
structure Extracted where
  emotion : Option String
  suggestion : Option String
  followup : Option String
  crisis : Option Bool
deriving DecidableEq, Repr

/-- `_extract_json` (analysis.py lines 171–178): locate the blob, try
`json.loads` (the `loads` parameter), and on any parse exception return the
hard-coded default record. -/
def _extract_json (loads : String → Option Extracted) (text : String) : Extracted :=
  match loads (blobOf text) with
  | some d => d
  | none => ⟨some "neutrality", some "", none, some false⟩

/-- `(data.get("emotion") or "neutrality").strip().lower()` (line 200). -/
def emotionOf (d : Extracted) : String :=
  pyLower (pyStrip (pyOr d.emotion "neutrality"))

/-- `data.get("suggestion") or ""` (line 201). -/
def suggestionBase (d : Extracted) : String :=
  pyOr d.suggestion ""

/-- Lines 204–206: append `f"<br><br><i>{followup}</i>"` when the follow-up
field is truthy (present and non-empty). -/
def withFollowup (d : Extracted) : String :=
  match d.followup with
  | some f => if f = "" then suggestionBase d else suggestionBase d ++ "<br><br><i>" ++ f ++ "</i>"
  | none => suggestionBase d

/-- `bool(data.get("crisis", False))` (line 209). -/
def crisisOf (d : Extracted) : Bool :=
  d.crisis.getD false

/-- The fixed safety banner (lines 211–216), verbatim. -/
def CRISIS_BANNER : String :=
  "<div style=\x27border-left: 4px solid #e11; padding: 10px; margin: 10px 0;\x27><b>If you are in immediate danger or considering self-harm:</b> Please reach out to local emergency services or call <b>988</b> (U.S. Suicide & Crisis Lifeline). This app is not a medical device.</div>"

/-- Lines 209–217: prepend the banner exactly when the crisis flag is truthy. -/
def withBanner (d : Extracted) : String :=
  if crisisOf d then CRISIS_BANNER ++ withFollowup d else withFollowup d

/-- One emotion bucket of `MUSIC_LIBRARY`. -/
structure Bucket where
  songs : List String
  quotes : List String
  tips : List String
deriving DecidableEq, Repr

/-- The `"neutrality"` bucket (also the `.get` default at line 221). -/
def neutralityBucket : Bucket :=
  { songs := ["Viva La Vida â€“ Coldplay", "Riptide â€“ Vance Joy", "Home â€“ Edward Sharpe & The Magnetic Zeros"]
    quotes := ["Contentment is not the fulfillment of what you want, but the realization of how much you already have.", "Small steps every day lead to big changes."]
    tips := ["Write one thing you appreciate today.", "Take a short walk and notice your surroundings.", "Try something new, even small â€” novelty lifts energy."] }

/-- `MUSIC_LIBRARY` (lines 50–147), string contents verbatim (the file is
mojibake-encoded; the sequences below are exactly what Python reads). -/
def MUSIC_LIBRARY : List (String × Bucket) :=
  [("anxiety",
    { songs := ["Shake It Out â€“ Florence + The Machine", "Breathe Me â€“ Sia", "Fix You â€“ Coldplay"]
      quotes := ["You donâ€™t have to control your thoughts. You just have to stop letting them control you. â€” Dan Millman", "Worrying doesnâ€™t take away tomorrowâ€™s troubles, it takes away todayâ€™s peace."]
      tips := ["Take 5 slow, deep breaths and count backwards from 10.", "Write down your anxious thoughts and challenge one of them.", "Listen to a calm song and stretch your body."] }),
   ("sadness",
    { songs := ["Let It Be â€“ The Beatles", "Someone Like You â€“ Adele", "Fix You â€“ Coldplay"]
      quotes := ["Tears are words that need to be written. â€” Paulo Coelho", "This too shall pass. â€” Persian Proverb"]
      tips := ["Reach out to someone you trust for a quick chat.", "Allow yourself to cry â€” itâ€™s healing.", "Write down three small things youâ€™re grateful for."] }),
   ("joy",
    { songs := ["Happy â€“ Pharrell Williams", "Best Day of My Life â€“ American Authors", "Good as Hell â€“ Lizzo"]
      quotes := ["Happiness is not something ready-made. It comes from your actions. â€” Dalai Lama", "The more you celebrate your life, the more there is to celebrate. â€” Oprah"]
      tips := ["Share your joy with someone else.", "Capture this moment in your journal or take a photo.", "Create a playlist of upbeat songs."] }),
   ("anger",
    { songs := ["Lose Yourself â€“ Eminem", "Numb â€“ Linkin Park", "Stronger â€“ Kanye West"]
      quotes := ["For every minute you are angry, you lose sixty seconds of happiness. â€” Emerson", "Speak when you are angry and you will make the best speech you will ever regret."]
      tips := ["Go for a walk or do a quick workout to release tension.", "Write down what made you angry, then rip the page.", "Take a deep breath before reacting."] }),
   ("loneliness",
    { songs := ["Fix You â€“ Coldplay", "Lean On Me â€“ Bill Withers", "See You Again â€“ Wiz Khalifa ft. Charlie Puth"]
      quotes := ["The eternal quest of the human being is to shatter his loneliness. â€” Norman Cousins", "You are never truly alone â€” you are always connected in ways you cannot see."]
      tips := ["Send a message to someone you miss.", "Join an online community or hobby group.", "Watch or listen to something that makes you smile."] }),
   ("fear",
    { songs := ["Brave â€“ Sara Bareilles", "Fight Song â€“ Rachel Platten", "Donâ€™t Stop Believinâ€™ â€“ Journey"]
      quotes := ["Do the thing you fear and the death of fear is certain. â€” Emerson", "Everything you want is on the other side of fear. â€” Jack Canfield"]
      tips := ["Write down what youâ€™re afraid of and one tiny action you can take.", "Remind yourself of a time you overcame something tough.", "Take one deep breath and move forward."] }),
   ("stress",
    { songs := ["Weightless â€“ Marconi Union", "Budapest â€“ George Ezra", "Let It Go â€“ James Bay"]
      quotes := ["Almost everything will work again if you unplug it for a few minutes, including you. â€” Anne Lamott", "Slow down and everything you are chasing will come around and catch you. â€” Thich Nhat Hanh"]
      tips := ["Take a 5-minute break and stretch.", "Drink some water and breathe deeply.", "Focus on just one task â€” small wins reduce stress."] }),
   ("neutrality", neutralityBucket)]

/-- `MUSIC_LIBRARY.get(emotion, MUSIC_LIBRARY["neutrality"])` (line 221). -/
def bucketFor (emotion : String) : Bucket :=
  (MUSIC_LIBRARY.lookup emotion).getD neutralityBucket

/-- Line 220: the fallback branch is taken iff the assembled suggestion html
strips to the empty string (`if not suggestion_html.strip()`). -/
def fallbackInvoked (d : Extracted) : Bool :=
  pyStrip (withBanner d) = ""

/-- Lines 221–224: one song, one quote and one tip, each drawn by
`random.choice` (modelled by the three index parameters) from the bucket of
the normalized emotion label. -/
def fallbackTriple (emotion : String) (cs cq ct : Nat) : String × String × String :=
  let lib := bucketFor emotion
  (choose lib.songs cs, choose lib.quotes cq, choose lib.tips ct)

/-- The fallback f-string (lines 225–231), segments verbatim. -/
def fallbackHtml (t : String × String × String) : String :=
  "\n            <div style=\x27font-size:16px; line-height:1.6\x27>\n                <b>ðŸŽ§ Song:</b> " ++ t.1 ++
  "<br>\n                <b>ðŸ’¬ Quote:</b> <i>" ++ t.2.1 ++
  "</i><br>\n                <b>âœ… Tip:</b> " ++ t.2.2 ++
  "\n            </div>\n            "

/-- Lines 200–231: the suggestion html returned for an extracted record
(`cs cq ct` model the random draws, used only when the fallback fires). -/
def finalSuggestion (d : Extracted) (cs cq ct : Nat) : String :=
  if fallbackInvoked d then fallbackHtml (fallbackTriple (emotionOf d) cs cq ct)
  else withBanner d

/-- The body of prompt `"v1 - basic empathetic reply"` (lines 17–23). -/
def v1Template : String :=
  "You are a supportive diary assistant. Given a user\x27s journal entry, do:\n1) Detect the primary emotion as ONE word from: [joy, sadness, anger, anxiety, fear, loneliness, stress, neutrality]\n2) Provide a short, empathetic reflection (2-3 sentences).\n3) Offer exactly one practical, low-effort tip.\nReturn JSON with keys: emotion, suggestion."

/-- `PROMPT_VERSIONS` (lines 16–46), bodies verbatim after `.strip()`. -/
def PROMPT_VERSIONS : List (String × String) :=
  [("v1 - basic empathetic reply", v1Template),
   ("v2 - add specificity + follow-up",
    "You are a supportive diary assistant. For the journal entry:\n1) Detect primary emotion from: [joy, sadness, anger, anxiety, fear, loneliness, stress, neutrality]\n2) Provide a 2-3 sentence empathetic reflection that references 1â€“2 specific phrases from the user\x27s text.\n3) Offer one practical tip AND one micro-action the user can do in <5 minutes.\n4) End with one gentle follow-up question.\nReturn JSON with keys: emotion, suggestion (HTML allowed), followup."),
   ("v3 - safety-aware + culture-aware (English music option)",
    "You are a supportive diary assistant with safety awareness. For the journal entry:\n1) Detect primary emotion from: [joy, sadness, anger, anxiety, fear, loneliness, stress, neutrality]\n2) Provide a 2-3 sentence empathetic reflection referencing 1â€“2 user phrases.\n3) Offer one specific, practical tip AND one <5-min micro-action.\n4) If mood is negative (not joy/neutrality), optionally suggest one English song (title â€“ artist) relevant to mood.\n5) If the entry indicates crisis (self-harm intent, plans, or immediate danger), add a short, compassionate crisis message:\n   - Encourage seeking immediate professional help and contacting local emergency services.\n   - In the U.S., mention 988 Suicide & Crisis Lifeline.\n6) End with one gentle follow-up question.\nReturn JSON with keys: emotion, suggestion (HTML allowed), followup, crisis (boolean).")]

/-- Lines 193–194: template lookup (unknown ids fall back to v1) and the
rendered user prompt `f"{template}\n\nUser journal entry:\n\"\"\"\n{text}\n\"\"\""`. -/
def analysisPrompt (text prompt_version : String) : String :=
  let template := (PROMPT_VERSIONS.lookup prompt_version).getD v1Template
  template ++ "\n\nUser journal entry:\n\"\"\"\n" ++ text ++ "\n\"\"\""

/-- `analyze_emotion` (lines 182–238).  `hasKey` models
`openai.api_key is None`; `chat` models the API call (`.error` is a raised
exception, caught by the `except` at line 236); the result is
`(emotion, suggestion_html, (request, response))`. -/
def analyze_emotion (hasKey : Bool) (chat : Except String String)
    (loads : String → Option Extracted) (text prompt_version : String)
    (cs cq ct : Nat) : String × String × (String × String) :=
  if hasKey = false then ("Unknown", "Missing API key", ("", ""))
  else
    let user_prompt := analysisPrompt text prompt_version
    match chat with
    | .error e => ("Unknown", "Please try again later.", (user_prompt, e))
    | .ok raw_text =>
      let data := _extract_json loads raw_text
      (emotionOf data, finalSuggestion data cs cq ct, (user_prompt, raw_text))

/-- The closed emotion vocabulary requested by every prompt template. -/
def FIXED_VOCAB : List String :=
  ["joy", "sadness", "anger", "anxiety", "fear", "loneliness", "stress", "neutrality"]

/-- `_score_empathy` (lines 242–244). -/
def _score_empathy (text : String) : Nat :=
  let cues := ["I hear", "it sounds", "I understand", "valid", "makes sense", "I\x27m sorry", "glad"]
  min 5 (cues.countP fun c => isSubstr (pyLower c) (pyLower text))

end Analysis

/-! ## `app.py` -/

namespace App

/-- The three fields the submit handler reads off the parsed JSON object. -/
structure AppExtracted where
  summary : Option String
  reflection : Option String
  advice : Option String
deriving DecidableEq, Repr

/-- `_extract_json` (app.py lines 198–205): same blob search, but the
parse-failure default is `{"summary": "", "reflection": "", "advice": ""}`. -/
def _extract_json (loads : String → Option AppExtracted) (text : String) : AppExtracted :=
  match loads (blobOf text) with
  | some d => d
  | none => ⟨some "", some "", some ""⟩

/-- `score_empathy` (lines 208–210). -/
def score_empathy (text : String) : Nat :=
  let cues := ["I hear", "it sounds", "I understand", "valid", "makes sense", "it\x27s okay", "you showed"]
  min 5 (cues.countP fun c => isSubstr (pyLower c) (pyLower text))

/-- The loop of `score_specificity` (lines 215–223), instrumented to also
return the list of tokens that entered the qualifying branch (length `> 5`,
not seen before) and so were checked for reappearance.  The `hits >= 5`
break and the final `min(5, 1 + hits)` are reproduced exactly. -/
def specGo (t : String) : List String → List String → Nat → Nat × List String
  | [], _, hits => (min 5 (1 + hits), [])
  | tok :: rest, seen, hits =>
    let tok := cleanToken tok
    if 5 < tok.length && !(seen.contains tok) then
      let hits' := if isSubstr tok t then hits + 1 else hits
      if 5 ≤ hits' then (min 5 (1 + hits'), [tok])
      else
        let r := specGo t rest (tok :: seen) hits'
        (r.1, tok :: r.2)
    else specGo t rest seen hits

/-- `score_specificity` (lines 212–224): 1 base point plus the number of
deduplicated alphanumeric tokens of the user input longer than 5 characters
that reappear verbatim in the response, capped at 5.
(`_score_specificity` in analysis.py lines 246–257 is textually identical.) -/
def score_specificity (text ref : String) : Nat :=
  (specGo (pyLower text) (pySplitWs (pyLower ref)) [] 0).1

/-- The tokens of `ref` that `score_specificity text ref` actually checks
for reappearance in `text`. -/
def checkedTokens (text ref : String) : List String :=
  (specGo (pyLower text) (pySplitWs (pyLower ref)) [] 0).2

/-- `score_actionability` (lines 226–228); the cues are matched without
lowering (they are already lower case) against the lowered text. -/
def score_actionability (text : String) : Nat :=
  let cues := ["tomorrow", "try ", "you can ", "set a timer", "write down", "breathe", "walk", "5-minute", "micro"]
  min 5 (1 + cues.countP fun c => isSubstr c (pyLower text))

/-- `score_safety` (lines 230–232). -/
def score_safety (text : String) : Nat :=
  let cues := ["not a medical device", "988", "seek immediate", "emergency", "crisis"]
  min 5 (1 + cues.countP fun c => isSubstr c (pyLower text))

/-- One row of the `entries` table (`insert_entry` arguments). -/
structure EntryRow where
  date : String
  entry : String
  emotion : String
  suggestion : String
deriving DecidableEq, Repr

/-- One row of the `runlog` table (`insert_runlog` arguments). -/
structure RunRow where
  timestamp : String
  prompt_version : String
  model : String
  temperature : ℚ
  max_tokens : Nat
  user_input : String
  raw_request : String
  raw_response : String
deriving DecidableEq, Repr

/-- The two persisted tables; inserts append (the SQLite engine is treated
as a durable append log, as the spec scopes it). -/
structure DiaryState where
  entries : List EntryRow
  runlog : List RunRow
deriving DecidableEq, Repr

/-- What the submit handler surfaces to the user. -/
inductive SubmitOutcome where
  | warned
  | saved
  | errored (msg : String)
deriving DecidableEq, Repr

/-- Result of one click of "Reflect & Save": the new store state, the
surfaced outcome, and how many model API calls were issued. -/
structure SubmitResult where
  state : DiaryState
  outcome : SubmitOutcome
  apiCalls : Nat
deriving DecidableEq, Repr

/-- The rendered user prompt (line 248), shared shape with analysis.py. -/
def appPrompt (template entry : String) : String :=
  template ++ "\n\nUser journal entry:\n\"\"\"\n" ++ entry ++ "\n\"\"\""

/-- The `combined_html` f-string (lines 265–271), segments verbatim. -/
def combined_html (summary reflection advice : String) : String :=
  "\n                <div style=\x27font-size:16px; line-height:1.6\x27>\n                    <b>Summary:</b> " ++ summary ++
  "<br><br>\n                    <b>Reflection:</b> " ++ reflection ++
  "<br><br>\n                    <b>Advice:</b> " ++ advice ++
  "\n                </div>\n                "

/-- The Write Journal submit handler (app.py lines 243–292).  `template` is
`PROMPT_VERSIONS[prompt_choice]` (already looked up); `chat` models
`_chat_complete` (lines 184–196: `.error` is the raised `RuntimeError` for a
missing key/library, a network exception, or the `KeyError`/`IndexError`
from a malformed response shape, all caught by `except` at line 289);
`loads` models `json.loads`.  On the exception path nothing is persisted
and the message is surfaced; on success one `entries` row and one `runlog`
row are appended and the raw response is logged unmodified. -/
def submitJournal (loads : String → Option AppExtracted)
    (chat : Except String String) (date timestamp : String)
    (prompt_choice template model_name : String) (temperature : ℚ)
    (max_tokens : Nat) (st : DiaryState) (entry : String) : SubmitResult :=
  if pyStrip entry = "" then ⟨st, .warned, 0⟩
  else
    let user_prompt := appPrompt template entry
    match chat with
    | .error e => ⟨st, .errored e, 1⟩
    | .ok raw =>
      let data := _extract_json loads raw
      let summary := pyStrip (pyOr data.summary "")
      let reflection := pyStrip (pyOr data.reflection "")
      let advice := pyStrip (pyOr data.advice "")
      let combined := combined_html summary reflection advice
      ⟨⟨st.entries ++ [⟨date, entry, "mixed", combined⟩],
        st.runlog ++ [⟨timestamp, prompt_choice, model_name, temperature, max_tokens, entry, user_prompt, raw⟩]⟩,
       .saved, 1⟩

/-- One row of the Evaluate Outputs auto-score table (lines 341–353). -/
structure ScoredRow where
  timestamp : String
  prompt_version : String
  empathy : Nat
  specificity : Nat
  actionability : Nat
  safety : Nat
deriving DecidableEq, Repr

/-- Lines 341–353: score every run-log row with the four heuristics. -/
def scoreLogs (logs : List RunRow) : List ScoredRow :=
  logs.map fun r =>
    ⟨r.timestamp, r.prompt_version, score_empathy r.raw_response,
     score_specificity r.raw_response r.user_input,
     score_actionability r.raw_response, score_safety r.raw_response⟩

/-- Round-half-to-even to an integer, the rounding used by
`pandas.DataFrame.round`. -/
def roundHalfEven (q : ℚ) : ℤ :=
  let f := ⌊q⌋
  let r := q - f
  if r < 1 / 2 then f else if 1 / 2 < r then f + 1 else if f % 2 = 0 then f else f + 1

/-- `.round(2)`: round to two decimal places. -/
def round2 (q : ℚ) : ℚ :=
  (roundHalfEven (q * 100) : ℚ) / 100

/-- Arithmetic mean of a list of natural-number scores, as a rational. -/
def meanQ (xs : List Nat) : ℚ :=
  (xs.sum : ℚ) / (xs.length : ℚ)

/-- Line 356: `scored.groupby("prompt_version")[["Empathy",...]].mean().round(2)`,
specialised to the Empathy column of one group: the mean of the Empathy
scores of the rows whose `prompt_version` equals `v`, rounded to two
decimal places. -/
def avgEmpathy (logs : List RunRow) (v : String) : ℚ :=
  round2 (meanQ (((scoreLogs logs).filter fun row => row.prompt_version == v).map fun row => row.empathy))

end App

/-! ## Helper lemmas -/

theorem pyStripL_eq_nil_iff (l : List Char) :
    pyStripL l = [] ↔ ∀ c ∈ l, isPySpace c := by
  unfold pyStripL
  rw [List.reverse_eq_nil_iff, List.dropWhile_eq_nil_iff]
  constructor
  · intro h c hc
    rw [← List.takeWhile_append_dropWhile isPySpace l] at hc
    rcases List.mem_append.1 hc with h1 | h2
    · exact List.mem_takeWhile_imp h1
    · exact h c (List.mem_reverse.2 h2)
  · intro h c hc
    exact h c ((List.dropWhile_sublist isPySpace).subset (List.mem_reverse.1 hc))

theorem pyStrip_eq_empty_iff (s : String) :
    pyStrip s = "" ↔ ∀ c ∈ s.data, isPySpace c := by
  constructor
  · intro h
    exact (pyStripL_eq_nil_iff _).1 (congrArg String.data h)
  · intro h
    exact String.ext ((pyStripL_eq_nil_iff s.data).2 h)

theorem isPrefixOf_append (l₁ l₂ : List Char) : l₁.isPrefixOf (l₁ ++ l₂) = true := by
  induction l₁ with
  | nil => simp [List.isPrefixOf]
  | cons a t ih => simp [List.isPrefixOf, ih]

theorem startsWithText_append (a b : String) : startsWithText a (a ++ b) = true := by
  unfold startsWithText
  rw [String.data_append]
  exact isPrefixOf_append _ _

theorem append_ne_empty_right (a b : String) (h : b.data ≠ []) : a ++ b ≠ "" := by
  intro e
  have h2 : (a ++ b).data = [] := congrArg String.data e
  rw [String.data_append] at h2
  exact h (List.append_eq_nil.1 h2).2

theorem combined_html_ne_empty (s r a : String) : App.combined_html s r a ≠ "" := by
  unfold App.combined_html
  exact append_ne_empty_right _ _ (by decide)

theorem choose_mem (l : List String) (i : Nat) (h : l ≠ []) : choose l i ∈ l := by
  unfold choose
  have hm : i % l.length < l.length := Nat.mod_lt _ (List.length_pos.2 h)
  rw [List.getD_eq_getElem l "" hm]
  exact List.getElem_mem hm

theorem toNat_ofNat_valid {n : Nat} (h : n.isValidChar) : (Char.ofNat n).toNat = n := by
  rw [Char.ofNat, dif_pos h]
  rfl

theorem toLower_not_upper (c : Char) : isAsciiUpper c.toLower = false := by
  unfold Char.toLower
  dsimp only
  split
  next h =>
    have hv : (c.toNat + 32).isValidChar := Or.inl (by omega)
    have ht := toNat_ofNat_valid hv
    simp only [isAsciiUpper, ht, Bool.and_eq_false_iff, decide_eq_false_iff_not]
    omega
  next h =>
    simp only [isAsciiUpper, Bool.and_eq_false_iff, decide_eq_false_iff_not]
    omega

theorem pyLower_no_upper (s : String) : ∀ c ∈ (pyLower s).data, isAsciiUpper c = false := by
  intro c hc
  rcases List.mem_map.1 hc with ⟨a, _, rfl⟩
  exact toLower_not_upper a

theorem not_all_space_of_banner (s : String) :
    ¬ ∀ c ∈ (Analysis.CRISIS_BANNER ++ s).data, isPySpace c := by
  intro h
  have hm : '<' ∈ (Analysis.CRISIS_BANNER ++ s).data := by
    rw [String.data_append]
    exact List.mem_append_left _ (by decide)
  have := h '<' hm
  simp [isPySpace] at this

theorem crisis_fallback_not_invoked (d : Analysis.Extracted)
    (h : Analysis.crisisOf d = true) : Analysis.fallbackInvoked d = false := by
  unfold Analysis.fallbackInvoked Analysis.withBanner
  rw [h]
  simp only [if_true]
  rw [decide_eq_false_iff_not]
  intro e
  exact not_all_space_of_banner _ ((pyStrip_eq_empty_iff _).1 e)

theorem withBanner_of_not_crisis (d : Analysis.Extracted)
    (hc : Analysis.crisisOf d = false) :
    Analysis.withBanner d = Analysis.withFollowup d := by
  unfold Analysis.withBanner
  rw [hc]
  simp

theorem fallbackInvoked_iff (d : Analysis.Extracted) :
    Analysis.fallbackInvoked d = true ↔
      (Analysis.crisisOf d = false ∧ ∀ c ∈ (Analysis.withFollowup d).data, isPySpace c) := by
  constructor
  · intro h
    cases hx : Analysis.crisisOf d with
    | true =>
      rw [crisis_fallback_not_invoked d hx] at h
      simp at h
    | false =>
      refine ⟨rfl, ?_⟩
      unfold Analysis.fallbackInvoked at h
      rw [withBanner_of_not_crisis d hx, decide_eq_true_eq] at h
      exact (pyStrip_eq_empty_iff _).1 h
  · rintro ⟨hc, hall⟩
    unfold Analysis.fallbackInvoked
    rw [withBanner_of_not_crisis d hc, decide_eq_true_eq]
    exact (pyStrip_eq_empty_iff _).2 hall

/-! ## Claim theorems -/

set_option maxRecDepth 65536

/-- C1: for every input string (empty, prose-only, or malformed-JSON text —
modelled by the parser either raising, `loads ... = none`, or yielding an
object with all required fields absent), `_extract_json` returns a record
(it is a total function, so it cannot raise) whose fields all read as the
documented defaults downstream: emotion `"neutrality"`, empty suggestion,
no follow-up appended, crisis `false`. -/
theorem extract_json_never_fails (loads : String → Option Analysis.Extracted) (text : String)
    (h : loads (blobOf text) = none ∨ loads (blobOf text) = some ⟨none, none, none, none⟩) :
    Analysis.emotionOf (Analysis._extract_json loads text) = "neutrality" ∧
    Analysis.suggestionBase (Analysis._extract_json loads text) = "" ∧
    Analysis.withFollowup (Analysis._extract_json loads text) = "" ∧
    Analysis.crisisOf (Analysis._extract_json loads text) = false := by
  rcases h with h | h <;>
    · unfold Analysis._extract_json
      rw [h]
      refine ⟨?_, ?_, ?_, ?_⟩ <;> decide

/-- C1 witness: a prose-only text under a parser that rejects every blob. -/
theorem extract_json_never_fails_witness :
    Analysis.emotionOf (Analysis._extract_json (fun _ => none) "just prose, no json") = "neutrality" ∧
    Analysis.suggestionBase (Analysis._extract_json (fun _ => none) "just prose, no json") = "" ∧
    Analysis.withFollowup (Analysis._extract_json (fun _ => none) "just prose, no json") = "" ∧
    Analysis.crisisOf (Analysis._extract_json (fun _ => none) "just prose, no json") = false :=
  extract_json_never_fails (fun _ => none) "just prose, no json" (Or.inl rfl)

/-- C3: for every extracted record, a truthy crisis flag makes the fixed
safety banner a verbatim text prefix of the final rendered suggestion
(the prepend happens before the fallback check, and the banner is never
blank, so the fallback cannot replace it); a falsy crisis flag leaves the
banner-prepend step an identity, so the banner is never inserted and the
final suggestion is just the assembled text or the fallback html. -/
theorem crisis_banner_guardrail (d : Analysis.Extracted) (cs cq ct : Nat) :
    (Analysis.crisisOf d = true →
      startsWithText Analysis.CRISIS_BANNER (Analysis.finalSuggestion d cs cq ct) = true) ∧
    (Analysis.crisisOf d = false →
      Analysis.withBanner d = Analysis.withFollowup d ∧
      Analysis.finalSuggestion d cs cq ct =
        (if Analysis.fallbackInvoked d then
          Analysis.fallbackHtml (Analysis.fallbackTriple (Analysis.emotionOf d) cs cq ct)
         else Analysis.withFollowup d)) := by
  constructor
  · intro h
    unfold Analysis.finalSuggestion
    rw [crisis_fallback_not_invoked d h]
    simp only [Bool.false_eq_true, if_false]
    unfold Analysis.withBanner
    rw [h]
    simp only [if_true]
    exact startsWithText_append _ _
  · intro h
    have hb := withBanner_of_not_crisis d h
    refine ⟨hb, ?_⟩
    unfold Analysis.finalSuggestion
    rw [hb]

/-- C3 witness: a record with the crisis flag set, and one without. -/
theorem crisis_banner_guardrail_witness :
    startsWithText Analysis.CRISIS_BANNER
      (Analysis.finalSuggestion ⟨some "joy", some "ok", none, some true⟩ 0 0 0) = true ∧
    Analysis.withBanner ⟨some "joy", some "ok", none, some false⟩ =
      Analysis.withFollowup ⟨some "joy", some "ok", none, some false⟩ :=
  ⟨(crisis_banner_guardrail ⟨some "joy", some "ok", none, some true⟩ 0 0 0).1 rfl,
   ((crisis_banner_guardrail ⟨some "joy", some "ok", none, some false⟩ 0 0 0).2 rfl).1⟩

/-- C10 counterexample: a record with `crisis=true`, an empty model
suggestion, and a follow-up question.  The fallback generator is indeed not
invoked, but the final suggestion is the banner followed by the follow-up
html — not "exactly the banner text with nothing after it" as the claim
states. -/
theorem crisis_empty_suggestion_counterexample :
    Analysis.suggestionBase ⟨some "joy", some "", some "How are you feeling now?", some true⟩ = "" ∧
    Analysis.crisisOf ⟨some "joy", some "", some "How are you feeling now?", some true⟩ = true ∧
    Analysis.fallbackInvoked ⟨some "joy", some "", some "How are you feeling now?", some true⟩ = false ∧
    Analysis.finalSuggestion ⟨some "joy", some "", some "How are you feeling now?", some true⟩ 0 0 0 ≠
      Analysis.CRISIS_BANNER := by
  refine ⟨rfl, rfl, ?_, ?_⟩ <;> decide

/-- C10 (amended): if the extracted record has `crisis=true` then the
fallback generator is never invoked (the banner is prepended before the
emptiness check and is not blank); and when additionally the suggestion
text assembled before the banner (model suggestion plus any appended
follow-up) is empty, the final suggestion is exactly the banner text with
nothing after it. -/
theorem crisis_skips_fallback (d : Analysis.Extracted) (cs cq ct : Nat)
    (h : Analysis.crisisOf d = true) :
    Analysis.fallbackInvoked d = false ∧
    (Analysis.withFollowup d = "" →
      Analysis.finalSuggestion d cs cq ct = Analysis.CRISIS_BANNER) := by
  refine ⟨crisis_fallback_not_invoked d h, fun hf => ?_⟩
  unfold Analysis.finalSuggestion
  rw [crisis_fallback_not_invoked d h]
  simp only [Bool.false_eq_true, if_false]
  unfold Analysis.withBanner
  rw [h, hf]
  simp

/-- C10 witness: crisis flag set, empty suggestion, no follow-up — the
final suggestion is exactly the banner. -/
theorem crisis_skips_fallback_witness :
    Analysis.fallbackInvoked ⟨some "joy", some "", none, some true⟩ = false ∧
    Analysis.finalSuggestion ⟨some "joy", some "", none, some true⟩ 0 0 0 =
      Analysis.CRISIS_BANNER :=
  ⟨(crisis_skips_fallback ⟨some "joy", some "", none, some true⟩ 0 0 0 rfl).1,
   (crisis_skips_fallback ⟨some "joy", some "", none, some true⟩ 0 0 0 rfl).2 (by decide)⟩

/-- C4 counterexample: a record whose model-produced suggestion text is
empty after extraction but which carries a non-empty follow-up.  The
follow-up html is appended before the emptiness check, so the fallback
generator is *not* invoked — refuting "invoked exactly when the
model-produced suggestion text is empty after extraction". -/
theorem fallback_trigger_counterexample :
    Analysis.suggestionBase ⟨some "anxiety", some "", some "How are you?", some false⟩ = "" ∧
    Analysis.fallbackInvoked ⟨some "anxiety", some "", some "How are you?", some false⟩ = false := by
  refine ⟨rfl, ?_⟩
  decide

/-- C4 (amended): the fallback generator is invoked exactly when the whole
assembled suggestion html (model suggestion, plus the follow-up when
present, plus the crisis banner when flagged) strips to whitespace —
equivalently, no crisis flag and a whitespace-only pre-banner text; for the
label `"anxiety"` every possible random draw returns a (song, quote, tip)
triple drawn from the anxiety bucket of `MUSIC_LIBRARY`; and any label not
in the table maps to the designated default (`"neutrality"`) bucket. -/
theorem fallback_invocation_and_buckets (d : Analysis.Extracted)
    (cs cq ct : Nat) (e : String) :
    (Analysis.fallbackInvoked d = true ↔
      (Analysis.crisisOf d = false ∧ ∀ c ∈ (Analysis.withFollowup d).data, isPySpace c)) ∧
    ((Analysis.fallbackTriple "anxiety" cs cq ct).1 ∈ (Analysis.bucketFor "anxiety").songs ∧
     (Analysis.fallbackTriple "anxiety" cs cq ct).2.1 ∈ (Analysis.bucketFor "anxiety").quotes ∧
     (Analysis.fallbackTriple "anxiety" cs cq ct).2.2 ∈ (Analysis.bucketFor "anxiety").tips) ∧
    (Analysis.MUSIC_LIBRARY.lookup e = none →
      Analysis.bucketFor e = Analysis.neutralityBucket) := by
  refine ⟨fallbackInvoked_iff d, ⟨?_, ?_, ?_⟩, fun h => ?_⟩
  · exact choose_mem _ _ (by decide)
  · exact choose_mem _ _ (by decide)
  · exact choose_mem _ _ (by decide)
  · unfold Analysis.bucketFor
    rw [h]
    rfl

/-- C4 witness: an all-absent record does invoke the fallback; a concrete
draw lies in the anxiety bucket; the unrecognized label `"excited"` maps to
the neutrality bucket. -/
theorem fallback_invocation_and_buckets_witness :
    Analysis.fallbackInvoked ⟨none, none, none, none⟩ = true ∧
    (Analysis.fallbackTriple "anxiety" 0 1 2).1 ∈ (Analysis.bucketFor "anxiety").songs ∧
    Analysis.bucketFor "excited" = Analysis.neutralityBucket :=
  ⟨(fallback_invocation_and_buckets ⟨none, none, none, none⟩ 0 0 0 "x").1.mpr
     ⟨rfl, by decide⟩,
   (fallback_invocation_and_buckets ⟨none, none, none, none⟩ 0 1 2 "x").2.1.1,
   (fallback_invocation_and_buckets ⟨none, none, none, none⟩ 0 0 0 "excited").2.2 (by decide)⟩

/-- C5 counterexample: when the model asserts the non-vocabulary emotion
`"EXCITED"`, the pipeline's emotion output is `"excited"` — lowercased but
*not* drawn from the fixed vocabulary; and on the failure paths the
sentinel actually returned is `"Unknown"` (capital U), not `"unknown"`. -/
theorem emotion_vocabulary_counterexample :
    (Analysis.analyze_emotion true (Except.ok "ignored")
        (fun _ => some ⟨some "EXCITED", some "be happy", none, some false⟩)
        "entry" "v1 - basic empathetic reply" 0 0 0).1 = "excited" ∧
    "excited" ∉ Analysis.FIXED_VOCAB ∧
    (Analysis.analyze_emotion false (Except.ok "x") (fun _ => none)
        "entry" "v1 - basic empathetic reply" 0 0 0).1 = "Unknown" ∧
    "Unknown" ≠ "unknown" := by
  refine ⟨?_, by decide, rfl, by decide⟩
  decide

/-- C5 (amended): on the success path the emotion produced by
`analyze_emotion` is the model-asserted label stripped and lowercased
(defaulting to `"neutrality"` when the field is absent or falsy) — it
contains no ASCII upper-case letter, but it is *not* validated against the
fixed vocabulary; on the missing-key and exception paths the sentinel is
the string `"Unknown"`. -/
theorem emotion_normalization (hasKey : Bool) (chat : Except String String)
    (loads : String → Option Analysis.Extracted) (text pv : String) (cs cq ct : Nat) :
    (∀ raw, hasKey = true → chat = Except.ok raw →
      (Analysis.analyze_emotion hasKey chat loads text pv cs cq ct).1 =
        pyLower (pyStrip (pyOr (Analysis._extract_json loads raw).emotion "neutrality")) ∧
      ∀ c ∈ (Analysis.analyze_emotion hasKey chat loads text pv cs cq ct).1.data,
        isAsciiUpper c = false) ∧
    (hasKey = false →
      (Analysis.analyze_emotion hasKey chat loads text pv cs cq ct).1 = "Unknown") ∧
    (∀ e, hasKey = true → chat = Except.error e →
      (Analysis.analyze_emotion hasKey chat loads text pv cs cq ct).1 = "Unknown") := by
  refine ⟨fun raw hk hc => ?_, fun hk => ?_, fun e hk hc => ?_⟩
  · subst hk; subst hc
    exact ⟨rfl, pyLower_no_upper _⟩
  · subst hk
    rfl
  · subst hk; subst hc
    rfl

/-- C5 witness: concrete success and failure runs. -/
theorem emotion_normalization_witness :
    (Analysis.analyze_emotion true (Except.ok "x") (fun _ => none) "t" "v" 0 0 0).1 =
      pyLower (pyStrip (pyOr (Analysis._extract_json (fun _ => none) "x").emotion "neutrality")) ∧
    (Analysis.analyze_emotion false (Except.ok "x") (fun _ => none) "t" "v" 0 0 0).1 = "Unknown" :=
  ⟨((emotion_normalization true (Except.ok "x") (fun _ => none) "t" "v" 0 0 0).1 "x" rfl rfl).1,
   (emotion_normalization false (Except.ok "x") (fun _ => none) "t" "v" 0 0 0).2.1 rfl⟩

/-- C6: a submitted entry whose text is empty is rejected before reaching
the store — the user is warned, the state is unchanged (no entries row, no
runlog row) and no model API call is made; and every entries row after a
submit either was already stored or has non-empty text (the validation
check `not entry.strip()` rejects all whitespace-only texts), so stored
entries always have non-empty text. -/
theorem empty_entry_rejected (loads : String → Option App.AppExtracted)
    (chat : Except String String) (date timestamp pv template model_name : String)
    (temperature : ℚ) (max_tokens : Nat) (st : App.DiaryState) (entry : String) :
    (entry = "" →
      App.submitJournal loads chat date timestamp pv template model_name
        temperature max_tokens st entry = ⟨st, App.SubmitOutcome.warned, 0⟩) ∧
    (∀ row ∈ (App.submitJournal loads chat date timestamp pv template model_name
        temperature max_tokens st entry).state.entries,
      row ∈ st.entries ∨ row.entry ≠ "") := by
  constructor
  · intro h
    subst h
    rfl
  · intro row hrow
    unfold App.submitJournal at hrow
    by_cases he : pyStrip entry = ""
    · rw [if_pos he] at hrow
      exact Or.inl hrow
    · rw [if_neg he] at hrow
      cases chat with
      | error e => exact Or.inl hrow
      | ok raw =>
        rcases List.mem_append.1 hrow with h1 | h2
        · exact Or.inl h1
        · rcases List.mem_singleton.1 h2 with rfl
          refine Or.inr fun h0 => he ?_
          have h1 : entry = "" := h0
          subst h1
          rfl

/-- C6 witness: the empty submission on an empty store. -/
theorem empty_entry_rejected_witness :
    App.submitJournal (fun _ => none) (Except.ok "x") "2024-01-01" "t0" "v1" "tpl"
      "gpt-3.5-turbo" 0 600 ⟨[], []⟩ "" = ⟨⟨[], []⟩, App.SubmitOutcome.warned, 0⟩ :=
  (empty_entry_rejected (fun _ => none) (Except.ok "x") "2024-01-01" "t0" "v1" "tpl"
    "gpt-3.5-turbo" 0 600 ⟨[], []⟩ "").1 rfl

/-- C2: for every entry text that passes the emptiness validation
(non-empty after stripping, the code's and spec §7's notion of a non-empty
submission), exactly one model API call is made (no retry), and the submit
either surfaces the upstream/config error with the state unchanged (nothing
persisted), or saves exactly one entries row — with non-null emotion
`"mixed"` and a non-empty suggestion — together with exactly one runlog row
holding the unmodified raw response. -/
theorem submit_saves_or_surfaces_error (loads : String → Option App.AppExtracted)
    (chat : Except String String) (date timestamp pv template model_name : String)
    (temperature : ℚ) (max_tokens : Nat) (st : App.DiaryState) (entry : String)
    (h : pyStrip entry ≠ "") :
    (App.submitJournal loads chat date timestamp pv template model_name
        temperature max_tokens st entry).apiCalls = 1 ∧
    ((∃ e, chat = Except.error e ∧
        App.submitJournal loads chat date timestamp pv template model_name
          temperature max_tokens st entry =
          ⟨st, App.SubmitOutcome.errored e, 1⟩) ∨
     (∃ raw, chat = Except.ok raw ∧
      ∃ row log,
        (App.submitJournal loads chat date timestamp pv template model_name
            temperature max_tokens st entry).state.entries = st.entries ++ [row] ∧
        (App.submitJournal loads chat date timestamp pv template model_name
            temperature max_tokens st entry).state.runlog = st.runlog ++ [log] ∧
        (App.submitJournal loads chat date timestamp pv template model_name
            temperature max_tokens st entry).outcome = App.SubmitOutcome.saved ∧
        row.entry = entry ∧ row.emotion = "mixed" ∧ row.suggestion ≠ "" ∧
        log.user_input = entry ∧ log.raw_response = raw)) := by
  unfold App.submitJournal
  rw [if_neg h]
  cases chat with
  | error e =>
    exact ⟨rfl, Or.inl ⟨e, rfl, rfl⟩⟩
  | ok raw =>
    refine ⟨rfl, Or.inr ⟨raw, rfl, _, _, rfl, rfl, rfl, rfl, rfl, ?_, rfl, rfl⟩⟩
    exact combined_html_ne_empty _ _ _

/-- C2 witness: a concrete successful submission and a concrete failed one. -/
theorem submit_saves_or_surfaces_error_witness :
    (App.submitJournal (fun _ => none) (Except.ok "no json") "2024-01-01" "t0" "v1"
        "tpl" "gpt-3.5-turbo" 0 600 ⟨[], []⟩ "hello").apiCalls = 1 ∧
    (App.submitJournal (fun _ => none) (Except.error "boom") "2024-01-01" "t0" "v1"
        "tpl" "gpt-3.5-turbo" 0 600 ⟨[], []⟩ "hello").apiCalls = 1 :=
  ⟨(submit_saves_or_surfaces_error (fun _ => none) (Except.ok "no json") "2024-01-01"
      "t0" "v1" "tpl" "gpt-3.5-turbo" 0 600 ⟨[], []⟩ "hello" (by decide)).1,
   (submit_saves_or_surfaces_error (fun _ => none) (Except.error "boom") "2024-01-01"
      "t0" "v1" "tpl" "gpt-3.5-turbo" 0 600 ⟨[], []⟩ "hello" (by decide)).1⟩

/-- C7 counterexample: on `"I hear you, that sounds hard"` both empathy
scorers return 1 (only the cue `"I hear"` occurs — `"it sounds"` is not a
substring of `"that sounds"`), not 2 as the claim states. -/
theorem empathy_value_counterexample :
    App.score_empathy "I hear you, that sounds hard" ≠ 2 ∧
    Analysis._score_empathy "I hear you, that sounds hard" ≠ 2 := by
  refine ⟨?_, ?_⟩ <;> decide

/-- C7 (amended): the empathy scorers are deterministic and pure (repeated
calls on the same string give the same value), and on the input
`"I hear you, that sounds hard"` both return exactly 1. -/
theorem empathy_deterministic_value :
    (∀ x : String, App.score_empathy x = App.score_empathy x) ∧
    (∀ x : String, Analysis._score_empathy x = Analysis._score_empathy x) ∧
    App.score_empathy "I hear you, that sounds hard" = 1 ∧
    Analysis._score_empathy "I hear you, that sounds hard" = 1 :=
  ⟨fun _ => rfl, fun _ => rfl, by decide, by decide⟩

/-- C8 counterexample: for the claimed input, `"weeks"` is *not* among the
tokens checked for reappearance — it has exactly 5 characters, and only
tokens strictly longer than 5 qualify. -/
theorem specificity_tokens_counterexample :
    "weeks" ∉ App.checkedTokens "you mentioned exam stress"
      "I have been stressed about my exam results for weeks" ∧
    ¬ 5 < "weeks".length := by
  refine ⟨?_, by decide⟩
  decide

/-- C8 (amended): for response `"you mentioned exam stress"` and input
`"I have been stressed about my exam results for weeks"`, the tokens longer
than 5 characters that are checked for verbatim reappearance are exactly
`"stressed"` and `"results"` (`"weeks"` has exactly 5 characters and is
excluded); neither reappears in the response, so the returned score is the
base point alone: 1. -/
theorem specificity_example_scores :
    App.checkedTokens "you mentioned exam stress"
      "I have been stressed about my exam results for weeks" = ["stressed", "results"] ∧
    App.score_specificity "you mentioned exam stress"
      "I have been stressed about my exam results for weeks" = 1 := by
  refine ⟨?_, ?_⟩ <;> decide

/-- Demonstration run-log rows for the aggregation claim: three
prompt-version-`"v1"` rows whose raw responses score Empathy 2, 3 and 4,
plus one `"v2"` row (scoring 0) that the `"v1"` group must ignore. -/
def demoLogs : List App.RunRow :=
  [⟨"t1", "v1", "gpt-3.5-turbo", 3 / 10, 600, "my day", "req1", "I hear you. it sounds difficult."⟩,
   ⟨"t2", "v1", "gpt-3.5-turbo", 3 / 10, 600, "my day", "req2", "I hear you. it sounds valid."⟩,
   ⟨"t3", "v1", "gpt-3.5-turbo", 3 / 10, 600, "my day", "req3", "I hear you. it sounds valid and makes sense."⟩,
   ⟨"t4", "v2", "gpt-3.5-turbo", 3 / 10, 600, "my day", "req4", "ok"⟩]

/-- C9: per-version aggregation is the arithmetic mean of the score column
over the rows of that prompt version, rounded to two decimal places: for
three `"v1"` run-log rows with Empathy scores 2, 3, 4 the aggregate is
exactly 3 (displayed 3.00), and the interleaved `"v2"` row is grouped
separately (its aggregate is 0). -/
theorem empathy_average_by_version :
    App.score_empathy "I hear you. it sounds difficult." = 2 ∧
    App.score_empathy "I hear you. it sounds valid." = 3 ∧
    App.score_empathy "I hear you. it sounds valid and makes sense." = 4 ∧
    App.avgEmpathy demoLogs "v1" = 3 ∧
    App.avgEmpathy demoLogs "v2" = 0 := by
  refine ⟨by decide, by decide, by decide, ?_, ?_⟩
  · have h : App.avgEmpathy demoLogs "v1" = App.round2 (App.meanQ [2, 3, 4]) := rfl
    have hm : App.meanQ [2, 3, 4] = 3 := by
      simp [App.meanQ]
      norm_num
    rw [h, hm]
    unfold App.round2 App.roundHalfEven
    norm_num
  · have h : App.avgEmpathy demoLogs "v2" = App.round2 (App.meanQ [0]) := rfl
    have hm : App.meanQ [0] = 0 := by simp [App.meanQ]
    rw [h, hm]
    unfold App.round2 App.roundHalfEven
    norm_num
